import Mathlib

/-!
Shallow embedding of the AI-blog-generator pipeline
(`prompt_chaining.py` and `prompt_chaining_api.py`).

Python string primitives are modelled over `List Char`:
`str.strip()` as `pyStrip`, `str.split('\n')` as `splitLines`,
`str.split()` (whitespace tokenisation) as `pyWords`,
`str.startswith(p)` as `pyStartsWith`, `sep.join(l)` as `pyJoin`.
Python `dict` (insertion-ordered) is modelled as an association list:
assignment keeps the position of an existing key and appends a fresh key.
Exceptions (`ValueError`, `KeyError`, `IndexError`) are modelled with
`Except PyError`; the OpenAI completion boundary is an opaque function
`String → Except String String` (error = raised transport exception).
-/

set_option maxRecDepth 8000

/-- Python whitespace test used by `strip` and `split`. -/
def pyWS (c : Char) : Bool := c.isWhitespace

/-- Split a character list at every occurrence of `c` (Python `str.split(c)`:
an empty input yields one empty field). -/
def splitCharList (c : Char) : List Char → List (List Char)
  | [] => [[]]
  | x :: xs =>
    if x = c then [] :: splitCharList c xs
    else
      match splitCharList c xs with
      | [] => [[x]]
      | y :: ys => (x :: y) :: ys

/-- Python `response.split('\n')`. -/
def splitLines (s : String) : List String :=
  (splitCharList '\n' s.data).map (fun l => ⟨l⟩)

/-- Drop leading whitespace (helper for `pyStrip`). -/
def trimL (l : List Char) : List Char := l.dropWhile pyWS

/-- Drop trailing whitespace (helper for `pyStrip`). -/
def trimR (l : List Char) : List Char := (l.reverse.dropWhile pyWS).reverse

/-- Python `s.strip()`: remove leading and trailing whitespace. -/
def pyStrip (s : String) : String := ⟨trimR (trimL s.data)⟩

/-- Python `s.startswith(pre)`. -/
def pyStartsWith (pre s : String) : Bool := pre.data.isPrefixOf s.data

/-- Python `sep.join(l)`. -/
def pyJoin (sep : String) : List String → String
  | [] => ""
  | [x] => x
  | x :: y :: ys => x ++ sep ++ pyJoin sep (y :: ys)

/-- Split a character list at every maximal run of characters satisfying `p`,
keeping only the non-empty fields (Python `str.split()` semantics once
composed with the filter in `pyWords`). -/
def splitWS : List Char → List (List Char)
  | [] => [[]]
  | x :: xs =>
    if pyWS x then [] :: splitWS xs
    else
      match splitWS xs with
      | [] => [[x]]
      | y :: ys => (x :: y) :: ys

/-- Python `s.split()` with no separator: whitespace-delimited tokens,
no empty fields. -/
def pyWords (s : String) : List String :=
  ((splitWS s.data).filter (fun l => l ≠ [])).map (fun l => ⟨l⟩)

/-- Errors raised by the modelled Python code; the payload of each
constructor is what `str(e)` shows for that exception. -/
inductive PyError where
  | valueError (msg : String)
  | keyError (key : String)
  | indexError
deriving DecidableEq

/-- Python `str(e)` on a caught exception (`IndexError` from an
out-of-range list subscript prints `list index out of range`). -/
def PyError.message : PyError → String
  | .valueError m => m
  | .keyError k => k
  | .indexError => "list index out of range"

/-- Is the exception a `ValueError`? (`main` only catches those.) -/
def PyError.isValueError : PyError → Bool
  | .valueError _ => true
  | _ => false

/-- Python `l[i]` on a list: `IndexError` when out of range. -/
def pyIndex (l : List String) (i : Nat) : Except PyError String :=
  match l.get? i with
  | some x => .ok x
  | none => .error .indexError

instance {ε α : Type} [DecidableEq ε] [DecidableEq α] : DecidableEq (Except ε α) := by
  intro a b
  cases a <;> cases b
  case error.error e f => exact decidable_of_iff (e = f) (by simp)
  case ok.ok x y => exact decidable_of_iff (x = y) (by simp)
  all_goals exact isFalse (by simp)

/-- The `PromptChaining` class: its only state is the completion client,
modelled as an opaque function from prompt to either a response text or a
raised transport exception. -/
structure PromptChaining where
  complete : String → Except String String

/-- `PromptChaining.generate_llm_response`: forwards the prompt to the
client; any exception is swallowed and the empty string returned. -/
def generate_llm_response (bg : PromptChaining) (prompt : String) : String :=
  match bg.complete prompt with
  | .ok s => s
  | .error _ => ""

/-- Prompt built by `generate_blog_topics`. -/
def topics_prompt (domain target_audience : String) : String :=
  "Generate 5 engaging blog post topics for " ++ target_audience ++
    " \n        in the " ++ domain ++ " domain. Each topic should be unique and interesting."

/-- `PromptChaining.generate_blog_topics`: one completion call, keep the
stripped non-blank lines, gate on having at least 3 of them. -/
def generate_blog_topics (bg : PromptChaining) (domain target_audience : String) :
    Except PyError (List String) :=
  let response := generate_llm_response bg (topics_prompt domain target_audience)
  let topics := ((splitLines response).filter (fun t => pyStrip t ≠ "")).map pyStrip
  if topics.length < 3 then
    .error (.valueError "Not enough topics generated. Please try again.")
  else
    .ok topics

/-- The trimmed non-blank lines of a text, in order of appearance
(the spec's description of `GenerateTopics`' result). -/
def trimmedNonBlankLines (s : String) : List String :=
  ((splitLines s).map pyStrip).filter (fun t => t ≠ "")

/-- The section dictionary of `create_outline`: a Python `dict` keyed by
heading, insertion-ordered. -/
abbrev Sections : Type := List (String × List String)

/-- Python `sections[k] = v`: overwrite in place when the key exists,
otherwise append the new binding at the end. -/
def dictSet (d : Sections) (k : String) (v : List String) : Sections :=
  if d.any (fun p => p.1 = k) then
    d.map (fun p => if p.1 = k then (p.1, v) else p)
  else
    d ++ [(k, v)]

/-- Python `sections[k].append(x)`: `KeyError` when the key is absent
(`str(KeyError('k'))` shows the key's repr). -/
def dictAppend (d : Sections) (k : String) (x : String) : Except PyError Sections :=
  if d.any (fun p => p.1 = k) then
    .ok (d.map (fun p => if p.1 = k then (p.1, p.2 ++ [x]) else p))
  else
    .error (.keyError ("\x27" ++ k ++ "\x27"))

/-- The line loop of `create_outline`: blank lines are skipped, a line not
starting with two spaces opens a new section (resetting its bullet list),
any other line is appended to the current section; if no section has been
opened yet, `sections[None]` raises `KeyError` whose `str` is `None`. -/
def outline_loop (sections : Sections) (current_section : Option String) :
    List String → Except PyError Sections
  | [] => .ok sections
  | line :: rest =>
    if pyStrip line ≠ "" then
      if ¬ pyStartsWith "  " line then
        outline_loop (dictSet sections (pyStrip line) []) (some (pyStrip line)) rest
      else
        match current_section with
        | none => .error (.keyError "None")
        | some cur =>
          match dictAppend sections cur (pyStrip line) with
          | .error e => .error e
          | .ok sections2 => outline_loop sections2 (some cur) rest
    else
      outline_loop sections current_section rest

/-- Prompt built by `create_outline`. -/
def outline_prompt (topic : String) : String :=
  "Create a detailed outline for a blog post about \x27" ++ topic ++
    "\x27.\n        Include main sections and key points for each section."

/-- `PromptChaining.create_outline`: one completion call, the indentation
parse of `outline_loop`, then the gate requiring at least 3 sections. -/
def create_outline (bg : PromptChaining) (topic : String) : Except PyError Sections :=
  let response := generate_llm_response bg (outline_prompt topic)
  match outline_loop [] none (splitLines response) with
  | .error e => .error e
  | .ok sections =>
    if sections.length < 3 then
      .error (.valueError "Outline is too short. Please generate a more detailed outline.")
    else
      .ok sections

/-- Number of non-blank lines of a text that do not start with two spaces
(the claim's count of unindented lines). -/
def unindentedLineCount (s : String) : Nat :=
  ((splitLines s).filter (fun l => pyStrip l ≠ "" ∧ ¬ pyStartsWith "  " l)).length

/-- Prompt built by `write_content` for one section's bullet points. -/
def content_prompt (points : List String) : String :=
  "Write a detailed section for a blog post covering the following points: " ++
    pyJoin ", " points ++
    ". \n            Do not include the section title in your response."

/-- `PromptChaining.write_content`: one completion call per section in
outline order, each block being a newline, the heading, a newline and the
generated text; blocks joined with a newline; gate requiring at least 300
whitespace-delimited words in the joined text. -/
def write_content (bg : PromptChaining) (outline : Sections) : Except PyError String :=
  let content := outline.map
    (fun sp => "\n" ++ sp.1 ++ "\n" ++ generate_llm_response bg (content_prompt sp.2))
  let final_content := pyJoin "\n" content
  if (pyWords final_content).length < 300 then
    .error (.valueError "Content is too short. Please generate more detailed content.")
  else
    .ok final_content

/-- Prompt built by `edit_and_polish`, embedding the draft verbatim. -/
def polish_prompt (content : String) : String :=
  "Please edit and polish the following blog post content. \n        Improve clarity, fix any grammatical issues, and enhance the overall flow:\n        \n        " ++
    content

/-- `PromptChaining.edit_and_polish`: one completion call; gate rejecting
an output whose stripped text equals the stripped input. -/
def edit_and_polish (bg : PromptChaining) (content : String) : Except PyError String :=
  let final_content := generate_llm_response bg (polish_prompt content)
  if pyStrip final_content = pyStrip content then
    .error (.valueError "No meaningful edits were made. Please try editing again.")
  else
    .ok final_content

/-- One observable result of a pipeline run: the four stage payloads the
streaming adapter emits (and the synchronous driver prints), plus the
`error` event carrying `str(e)`. -/
inductive Event where
  | topics (topics : List String)
  | outline (outline : Sections) (topic : String)
  | initial_content (content : String)
  | final_content (content : String)
  | error (msg : String)
deriving DecidableEq

/-- Is this the `error` event? -/
def Event.isError : Event → Bool
  | .error _ => true
  | _ => false

/-- The `event_generator` coroutine of `prompt_chaining_api.py`, as the
list of events it yields. `disc n` is the value of the `n`-th
`request.is_disconnected()` poll (checked after the first, second and
third events); any exception from a stage becomes one final `error` event. -/
def event_generator (bg : PromptChaining) (domain target_audience : String)
    (disc : Nat → Bool) : List Event :=
  match generate_blog_topics bg domain target_audience with
  | .error e => [.error e.message]
  | .ok topics =>
    Event.topics topics ::
    if disc 0 then [] else
    match pyIndex topics 0 with
    | .error e => [.error e.message]
    | .ok chosen_topic =>
      match create_outline bg chosen_topic with
      | .error e => [.error e.message]
      | .ok outline =>
        Event.outline outline chosen_topic ::
        if disc 1 then [] else
        match write_content bg outline with
        | .error e => [.error e.message]
        | .ok content =>
          Event.initial_content content ::
          if disc 2 then [] else
          match edit_and_polish bg content with
          | .error e => [.error e.message]
          | .ok final_content => [Event.final_content final_content]

/-- The `main` driver of `prompt_chaining.py` (named `main_run` here), as the list of results it
prints: hardcoded domain and audience, first topic chosen, four stages in
order; a `ValueError` is caught and printed (one final `error` entry),
any other exception escapes `main` (the `Except.error` case). -/
def main_run (bg : PromptChaining) : Except PyError (List Event) :=
  match generate_blog_topics bg "artificial intelligence" "business professionals" with
  | .error e => if e.isValueError then .ok [.error e.message] else .error e
  | .ok topics =>
    match pyIndex topics 0 with
    | .error e => if e.isValueError then .ok [.topics topics, .error e.message] else .error e
    | .ok chosen_topic =>
      match create_outline bg chosen_topic with
      | .error e => if e.isValueError then .ok [.topics topics, .error e.message] else .error e
      | .ok outline =>
        match write_content bg outline with
        | .error e =>
          if e.isValueError then
            .ok [.topics topics, .outline outline chosen_topic, .error e.message]
          else .error e
        | .ok content =>
          match edit_and_polish bg content with
          | .error e =>
            if e.isValueError then
              .ok [.topics topics, .outline outline chosen_topic,
                   .initial_content content, .error e.message]
            else .error e
          | .ok final_content =>
            .ok [.topics topics, .outline outline chosen_topic,
                 .initial_content content, .final_content final_content]

/-- A 300-word text (witness material for the length gate). -/
def w300 : String := pyJoin " " (List.replicate 300 "w")

/-- The lines of an alternating outline text: each block is one heading
line followed by its indented lines (the claim's input shape). -/
def blockLines : List (String × List String) → List String
  | [] => []
  | b :: rest => b.1 :: (b.2 ++ blockLines rest)

/-- The concatenation described by the spec for `WriteContent`: one block
per section, in outline order, each the heading, a newline and the
generated text, blocks separated by blank lines (no leading newline). -/
def specSectionBlocks (bg : PromptChaining) (outline : Sections) : String :=
  pyJoin "\n\n"
    (outline.map (fun sp => sp.1 ++ "\n" ++ generate_llm_response bg (content_prompt sp.2)))

/-- An `error` event, if present, is the last emitted event. -/
def errorsOnlyLast : List Event → Bool
  | [] => true
  | [_] => true
  | e :: rest => ! e.isError && errorsOnlyLast rest

/-- Number of `error` events in a run. -/
def errorCount : List Event → Nat
  | [] => 0
  | e :: rest => (if e.isError then 1 else 0) + errorCount rest

/-- Drop the first `n` characters of a string (stub helper). -/
def stringDrop (n : Nat) (s : String) : String := ⟨s.data.drop n⟩

/-- A 100-word text (witness material for the length gate). -/
def w100 : String := pyJoin " " (List.replicate 100 "w")

/-- A completion stub realising Scenario D: three topics, an outline of
three sections, 100-word section texts (300 words in total), and a polish
call that echoes the embedded draft unchanged. -/
def scenarioD : PromptChaining :=
  ⟨fun p =>
    .ok (if pyStartsWith (polish_prompt "") p then stringDrop (polish_prompt "").length p
      else if pyStartsWith "Write a detailed section" p then w100
      else "A\nB\nC")⟩

/-- A completion stub whose outline stage fails: three topics, but the
outline response has a single section, tripping the section-count gate. -/
def outlineFailStub : PromptChaining :=
  ⟨fun p =>
    .ok (if pyStartsWith "Create a detailed outline" p then "X" else "A\nB\nC")⟩

/-- Filtering after mapping `pyStrip` is the same as filtering the raw
lines on non-blankness and then stripping (the comprehension in
`generate_blog_topics`). -/
theorem map_pyStrip_filter (ls : List String) :
    ((ls.map pyStrip).filter (fun t => t ≠ "")) =
      ((ls.filter (fun t => pyStrip t ≠ "")).map pyStrip) := by
  induction ls with
  | nil => rfl
  | cons a t ih =>
    simp only [ne_eq, decide_not] at ih
    by_cases h : pyStrip a = "" <;> simp [List.filter_cons, h, ih]

/-- C5: when the completion call raises, `generate_llm_response` swallows
the exception and returns the empty string; being a total function into
`String`, it always yields a defined string and never propagates. -/
theorem generate_llm_response_spec (bg : PromptChaining) (prompt e : String)
    (h : bg.complete prompt = .error e) :
    generate_llm_response bg prompt = "" := by
  simp [generate_llm_response, h]

theorem generate_llm_response_spec_witness :
    generate_llm_response ⟨fun _ => Except.error "boom"⟩ "p" = "" :=
  generate_llm_response_spec ⟨fun _ => Except.error "boom"⟩ "p" "boom" rfl

/-- C2: `generate_blog_topics` returns exactly the stripped non-blank
lines of the completion response in order when there are at least 3 of
them, and fails with the insufficient-output `ValueError` when there are
fewer than 3. -/
theorem generate_blog_topics_spec (bg : PromptChaining) (domain target_audience : String) :
    (3 ≤ (trimmedNonBlankLines (generate_llm_response bg (topics_prompt domain target_audience))).length →
      generate_blog_topics bg domain target_audience =
        .ok (trimmedNonBlankLines (generate_llm_response bg (topics_prompt domain target_audience)))) ∧
    ((trimmedNonBlankLines (generate_llm_response bg (topics_prompt domain target_audience))).length < 3 →
      generate_blog_topics bg domain target_audience =
        .error (.valueError "Not enough topics generated. Please try again.")) := by
  have key : trimmedNonBlankLines (generate_llm_response bg (topics_prompt domain target_audience)) =
      (((splitLines (generate_llm_response bg (topics_prompt domain target_audience))).filter
          (fun t => pyStrip t ≠ "")).map pyStrip) :=
    map_pyStrip_filter _
  constructor
  · intro h3
    rw [key] at h3 ⊢
    simp only [generate_blog_topics]
    rw [if_neg (by omega)]
  · intro h3
    rw [key] at h3
    simp only [generate_blog_topics]
    rw [if_pos (by omega)]

theorem generate_blog_topics_spec_witness :
    3 ≤ (trimmedNonBlankLines "Topic A\nTopic B\nTopic C\nTopic D").length ∧
    generate_blog_topics ⟨fun _ => Except.ok "Topic A\nTopic B\nTopic C\nTopic D"⟩ "d" "a" =
      .ok ["Topic A", "Topic B", "Topic C", "Topic D"] :=
  ⟨by decide,
   by
    have h := (generate_blog_topics_spec ⟨fun _ => Except.ok "Topic A\nTopic B\nTopic C\nTopic D"⟩
      "d" "a").1 (by decide)
    rw [h]; decide⟩

/-- C3: `edit_and_polish` fails with the no-effective-change `ValueError`
exactly when the stripped model output equals the stripped input, and any
output differing after stripping is returned unchanged. -/
theorem edit_and_polish_spec (bg : PromptChaining) (content : String) :
    (edit_and_polish bg content =
        .error (.valueError "No meaningful edits were made. Please try editing again.") ↔
      pyStrip (generate_llm_response bg (polish_prompt content)) = pyStrip content) ∧
    (pyStrip (generate_llm_response bg (polish_prompt content)) ≠ pyStrip content →
      edit_and_polish bg content = .ok (generate_llm_response bg (polish_prompt content))) := by
  by_cases h : pyStrip (generate_llm_response bg (polish_prompt content)) = pyStrip content <;>
    simp [edit_and_polish, h]

theorem edit_and_polish_spec_witness :
    edit_and_polish ⟨fun _ => Except.ok "x"⟩ "x" =
      .error (.valueError "No meaningful edits were made. Please try editing again.") ∧
    edit_and_polish ⟨fun _ => Except.ok "y"⟩ "x" = .ok "y" :=
  ⟨(edit_and_polish_spec ⟨fun _ => Except.ok "x"⟩ "x").1.mpr (by decide),
   (edit_and_polish_spec ⟨fun _ => Except.ok "y"⟩ "x").2 (by decide)⟩

/-- The head surviving a `dropWhile` fails the predicate. -/
theorem dropWhile_cons_not {α : Type} (p : α → Bool) (l : List α) (a : α) (t : List α)
    (h : l.dropWhile p = a :: t) : p a = false := by
  induction l with
  | nil => simp [List.dropWhile] at h
  | cons x xs ih =>
    rw [List.dropWhile_cons] at h
    by_cases hx : p x
    · rw [if_pos hx] at h
      exact ih h
    · rw [if_neg hx] at h
      injection h with h1 h2
      subst h1
      simpa using hx

/-- After dropping leading whitespace and then trailing whitespace, the
result has no leading whitespace left to drop. -/
theorem dropWhile_after_rdropWhile {α : Type} (p : α → Bool) (l : List α) :
    List.dropWhile p (List.rdropWhile p (List.dropWhile p l)) =
      List.rdropWhile p (List.dropWhile p l) := by
  rcases hn : List.rdropWhile p (List.dropWhile p l) with _ | ⟨a, t⟩
  · simp
  · obtain ⟨u, hu⟩ := List.rdropWhile_prefix p (List.dropWhile p l)
    rw [hn] at hu
    have hd : List.dropWhile p l = a :: (t ++ u) := by
      rw [← hu]
      rfl
    have ha : p a = false := dropWhile_cons_not p l a (t ++ u) hd
    rw [List.dropWhile_cons, if_neg (by simp [ha])]

/-- Python `strip` is idempotent. -/
theorem pyStrip_idem (s : String) : pyStrip (pyStrip s) = pyStrip s := by
  have h := dropWhile_after_rdropWhile pyWS s.data
  show String.mk (List.rdropWhile pyWS (List.dropWhile pyWS
      (List.rdropWhile pyWS (List.dropWhile pyWS s.data)))) =
    String.mk (List.rdropWhile pyWS (List.dropWhile pyWS s.data))
  rw [h, List.rdropWhile_idempotent]

/-- C9: a successful `generate_blog_topics` yields at least 3 topics, each
a non-empty string unchanged by stripping (no surrounding whitespace), so
the `topics[0]` selection in both drivers succeeds. -/
theorem generate_blog_topics_invariants (bg : PromptChaining)
    (domain target_audience : String) (ts : List String)
    (h : generate_blog_topics bg domain target_audience = .ok ts) :
    3 ≤ ts.length ∧ (∀ t ∈ ts, t ≠ "" ∧ pyStrip t = t) ∧ pyIndex ts 0 = .ok (ts.headD "") := by
  simp only [generate_blog_topics] at h
  split at h
  · exact absurd h (by simp)
  · rename_i hlen
    have hts := (Except.ok.inj h).symm
    subst hts
    refine ⟨by omega, ?_, ?_⟩
    · intro t ht
      simp only [List.mem_map] at ht
      obtain ⟨x, hx, rfl⟩ := ht
      have hxne : pyStrip x ≠ "" := by
        have := (List.mem_filter.mp hx).2
        simpa using this
      exact ⟨hxne, pyStrip_idem x⟩
    · rcases hcase :
        (((splitLines (generate_llm_response bg (topics_prompt domain target_audience))).filter
          (fun t => pyStrip t ≠ "")).map pyStrip) with _ | ⟨a, t⟩
      · rw [hcase] at hlen
        simp at hlen
      · rfl

theorem generate_blog_topics_invariants_witness :
    3 ≤ (["Topic A", "Topic B", "Topic C", "Topic D"] : List String).length ∧
    (∀ t ∈ (["Topic A", "Topic B", "Topic C", "Topic D"] : List String),
      t ≠ "" ∧ pyStrip t = t) ∧
    pyIndex ["Topic A", "Topic B", "Topic C", "Topic D"] 0 =
      .ok ((["Topic A", "Topic B", "Topic C", "Topic D"] : List String).headD "") :=
  generate_blog_topics_invariants ⟨fun _ => Except.ok "Topic A\nTopic B\nTopic C\nTopic D"⟩
    "d" "a" ["Topic A", "Topic B", "Topic C", "Topic D"] (by decide)

/-- One-step unfolding of `outline_loop` on a cons cell. -/
theorem outline_loop_cons (sections : Sections) (cur : Option String)
    (line : String) (rest : List String) :
    outline_loop sections cur (line :: rest) =
      if pyStrip line ≠ "" then
        if ¬ pyStartsWith "  " line then
          outline_loop (dictSet sections (pyStrip line) []) (some (pyStrip line)) rest
        else
          match cur with
          | none => .error (.keyError "None")
          | some c =>
            match dictAppend sections c (pyStrip line) with
            | .error e => .error e
            | .ok sections2 => outline_loop sections2 (some c) rest
      else
        outline_loop sections cur rest := by
  rfl

/-- The outline line loop ignores a run of blank lines. -/
theorem outline_loop_blank (sections : Sections) (cur : Option String)
    (pre : List String) (hpre : ∀ x ∈ pre, pyStrip x = "") (rest : List String) :
    outline_loop sections cur (pre ++ rest) = outline_loop sections cur rest := by
  induction pre with
  | nil => rfl
  | cons a t ih =>
    have ha : pyStrip a = "" := hpre a (by simp)
    rw [List.cons_append, outline_loop_cons, if_neg (by simp [ha])]
    exact ih (fun x hx => hpre x (by simp [hx]))

/-- C10: when the first non-blank line of the outline response starts with
two spaces, `create_outline` fails with the `KeyError` from subscripting
the sections dictionary with `None`, not with any of the spec's named
error kinds. -/
theorem create_outline_first_line_indented (bg : PromptChaining) (topic : String)
    (pre : List String) (l : String) (rest : List String)
    (hsplit : splitLines (generate_llm_response bg (outline_prompt topic)) = pre ++ l :: rest)
    (hpre : ∀ x ∈ pre, pyStrip x = "")
    (hl : pyStrip l ≠ "") (hind : pyStartsWith "  " l = true) :
    create_outline bg topic = .error (.keyError "None") := by
  have hloop : outline_loop [] none
      (splitLines (generate_llm_response bg (outline_prompt topic))) =
      .error (.keyError "None") := by
    rw [hsplit, outline_loop_blank [] none pre hpre (l :: rest), outline_loop_cons,
      if_pos hl, if_neg (by simp [hind])]
  unfold create_outline
  simp only [hloop]

theorem create_outline_first_line_indented_witness :
    create_outline ⟨fun _ => Except.ok "  x"⟩ "t" = .error (.keyError "None") :=
  create_outline_first_line_indented ⟨fun _ => Except.ok "  x"⟩ "t" [] "  x" []
    (by decide) (by simp) (by decide) (by decide)

/-- Mapping a function that fixes every element of a list is the identity. -/
theorem map_keep {α : Type} (f : α → α) (l : List α) (h : ∀ a ∈ l, f a = a) :
    l.map f = l := by
  induction l with
  | nil => rfl
  | cons a t ih => simp [h a (by simp), ih (fun x hx => h x (by simp [hx]))]

/-- Assigning a fresh key appends the binding at the end of the dict. -/
theorem dictSet_absent (d : Sections) (k : String) (v : List String)
    (hk : k ∉ d.map Prod.fst) : dictSet d k v = d ++ [(k, v)] := by
  unfold dictSet
  rw [if_neg]
  simp only [List.any_eq_true, decide_eq_true_eq, not_exists]
  intro p hp
  exact hk (by rw [← hp.2]; exact List.mem_map_of_mem Prod.fst hp.1)

/-- Appending a bullet to a key stored only in the last binding extends
that binding's list in place. -/
theorem dictAppend_last (d : Sections) (k x : String) (u : List String)
    (hk : k ∉ d.map Prod.fst) :
    dictAppend (d ++ [(k, u)]) k x = .ok (d ++ [(k, u ++ [x])]) := by
  unfold dictAppend
  rw [if_pos (by simp)]
  congr 1
  rw [List.map_append]
  congr 1
  · apply map_keep
    intro p hp
    rw [if_neg]
    intro hpk
    exact hk (by rw [← hpk]; exact List.mem_map_of_mem Prod.fst hp)
  · simp

/-- Running the outline loop over the indented lines of the current block
appends their stripped text to the last (current) binding. -/
theorem outline_loop_bullets (d : Sections) (k : String) (hk : k ∉ d.map Prod.fst)
    (bs rest : List String) :
    ∀ (u : List String), (∀ b ∈ bs, pyStrip b ≠ "" ∧ pyStartsWith "  " b = true) →
      outline_loop (d ++ [(k, u)]) (some k) (bs ++ rest) =
        outline_loop (d ++ [(k, u ++ bs.map pyStrip)]) (some k) rest := by
  induction bs with
  | nil =>
    intro u _
    simp
  | cons b bs ih =>
    intro u hbs
    obtain ⟨hb1, hb2⟩ := hbs b (by simp)
    rw [List.cons_append, outline_loop_cons, if_pos hb1, if_neg (by simp [hb2])]
    show (match dictAppend (d ++ [(k, u)]) k (pyStrip b) with
          | .error e => .error e
          | .ok sections2 => outline_loop sections2 (some k) (bs ++ rest)) =
      outline_loop (d ++ [(k, u ++ (b :: bs).map pyStrip)]) (some k) rest
    rw [dictAppend_last d k (pyStrip b) u hk]
    show outline_loop (d ++ [(k, u ++ [pyStrip b])]) (some k) (bs ++ rest) =
      outline_loop (d ++ [(k, u ++ (b :: bs).map pyStrip)]) (some k) rest
    rw [ih (u ++ [pyStrip b]) (fun x hx => hbs x (by simp [hx]))]
    simp

/-- Running the outline loop over alternating blocks with fresh, pairwise
distinct stripped headings appends one binding per block, in order. -/
theorem outline_loop_blocks (blocks : List (String × List String)) :
    ∀ (d : Sections) (cur : Option String),
      (∀ b ∈ blocks, pyStrip b.1 ≠ "" ∧ pyStartsWith "  " b.1 = false) →
      (∀ b ∈ blocks, ∀ l ∈ b.2, pyStrip l ≠ "" ∧ pyStartsWith "  " l = true) →
      (∀ b ∈ blocks, pyStrip b.1 ∉ d.map Prod.fst) →
      (blocks.map (fun b => pyStrip b.1)).Nodup →
      outline_loop d cur (blockLines blocks) =
        .ok (d ++ blocks.map (fun b => (pyStrip b.1, b.2.map pyStrip))) := by
  induction blocks with
  | nil =>
    intro d cur _ _ _ _
    simp [blockLines, outline_loop]
  | cons b blocks ih =>
    intro d cur hh hb hk hnd
    obtain ⟨h1, h2⟩ := hh b (by simp)
    show outline_loop d cur (b.1 :: (b.2 ++ blockLines blocks)) = _
    rw [outline_loop_cons, if_pos h1, if_pos (by simp [h2])]
    rw [dictSet_absent d (pyStrip b.1) [] (hk b (by simp))]
    rw [outline_loop_bullets d (pyStrip b.1) (hk b (by simp)) b.2 (blockLines blocks) []
      (fun l hl => hb b (by simp) l hl)]
    have hnd2 : pyStrip b.1 ∉ blocks.map (fun c => pyStrip c.1) ∧
        (blocks.map (fun c => pyStrip c.1)).Nodup := by
      rw [List.map_cons] at hnd
      exact List.nodup_cons.mp hnd
    have hknew : ∀ c ∈ blocks, pyStrip c.1 ∉ (d ++ [(pyStrip b.1, [] ++ b.2.map pyStrip)]).map Prod.fst := by
      intro c hc
      rw [List.map_append]
      simp only [List.mem_append, not_or]
      refine ⟨hk c (by simp [hc]), ?_⟩
      have hne : pyStrip c.1 ≠ pyStrip b.1 := by
        intro heq
        exact hnd2.1 (heq ▸ List.mem_map_of_mem (fun c => pyStrip c.1) hc)
      simp [hne]
    rw [ih (d ++ [(pyStrip b.1, [] ++ b.2.map pyStrip)]) (some (pyStrip b.1))
      (fun c hc => hh c (by simp [hc])) (fun c hc => hb c (by simp [hc])) hknew
      hnd2.2]
    simp

/-- C1 (amended): for a completion response whose lines alternate between
non-blank unindented heading lines and runs of non-blank indented lines,
with the stripped headings pairwise distinct, `create_outline` returns one
binding per heading (stripped), valued by the stripped indented lines that
follow it, in order; with fewer than 3 such headings it fails with the
insufficient-output `ValueError`. -/
theorem create_outline_spec (bg : PromptChaining) (topic : String)
    (blocks : List (String × List String))
    (hsplit : splitLines (generate_llm_response bg (outline_prompt topic)) = blockLines blocks)
    (hhead : ∀ b ∈ blocks, pyStrip b.1 ≠ "" ∧ pyStartsWith "  " b.1 = false)
    (hbull : ∀ b ∈ blocks, ∀ l ∈ b.2, pyStrip l ≠ "" ∧ pyStartsWith "  " l = true)
    (hnd : (blocks.map (fun b => pyStrip b.1)).Nodup) :
    (3 ≤ blocks.length →
      create_outline bg topic = .ok (blocks.map (fun b => (pyStrip b.1, b.2.map pyStrip)))) ∧
    (blocks.length < 3 →
      create_outline bg topic =
        .error (.valueError "Outline is too short. Please generate a more detailed outline.")) := by
  have hloop := outline_loop_blocks blocks [] none hhead hbull (by simp) hnd
  rw [List.nil_append] at hloop
  constructor
  · intro h3
    simp only [create_outline, hsplit, hloop]
    rw [if_neg (by rw [List.length_map]; omega)]
  · intro h3
    simp only [create_outline, hsplit, hloop]
    rw [if_pos (by rw [List.length_map]; omega)]

/-- C1 fails as stated: in `"A\nA\nB\nC"` the unindented lines strictly
alternate with (zero) indented lines and number 4, yet `create_outline`
returns only 3 mapping entries, because the duplicated heading `A` is
collapsed into a single dictionary key. -/
theorem create_outline_duplicate_heading_cex :
    unindentedLineCount "A\nA\nB\nC" = 4 ∧
    create_outline ⟨fun _ => Except.ok "A\nA\nB\nC"⟩ "t" =
      .ok [("A", []), ("B", []), ("C", [])] ∧
    ([("A", ([] : List String)), ("B", []), ("C", [])] : Sections).length ≠ 4 :=
  ⟨by decide, by decide, by decide⟩

theorem create_outline_spec_witness :
    create_outline ⟨fun _ => Except.ok "Intro\n  point1\n  point2\nBody\n  point3\nConclusion\n  point4"⟩ "t" =
      .ok [("Intro", ["point1", "point2"]), ("Body", ["point3"]), ("Conclusion", ["point4"])] := by
  have h := (create_outline_spec
    ⟨fun _ => Except.ok "Intro\n  point1\n  point2\nBody\n  point3\nConclusion\n  point4"⟩ "t"
    [("Intro", ["  point1", "  point2"]), ("Body", ["  point3"]), ("Conclusion", ["  point4"])]
    (by decide) (by decide) (by decide) (by decide)).1 (by decide)
  rw [h]
  decide

/-- String concatenation is associative. -/
theorem string_append_assoc (a b c : String) : (a ++ b) ++ c = a ++ (b ++ c) := by
  rcases a with ⟨a⟩
  rcases b with ⟨b⟩
  rcases c with ⟨c⟩
  show String.mk ((a ++ b) ++ c) = String.mk (a ++ (b ++ c))
  rw [List.append_assoc]

/-- Mapping functions that agree on every element gives the same list. -/
theorem map_congr_mem {α β : Type} (f g : α → β) (l : List α)
    (h : ∀ a ∈ l, f a = g a) : l.map f = l.map g := by
  induction l with
  | nil => rfl
  | cons a t ih => simp [h a (by simp), ih (fun x hx => h x (by simp [hx]))]

/-- Joining blocks that each start with a newline by single newlines is a
leading newline followed by joining the bare blocks by blank lines. -/
theorem pyJoin_newline_blocks (l : List String) (hl : l ≠ []) :
    pyJoin "\n" (l.map (fun b => "\n" ++ b)) = "\n" ++ pyJoin "\n\n" l := by
  induction l with
  | nil => contradiction
  | cons a t ih =>
    cases t with
    | nil => rfl
    | cons b u =>
      show ("\n" ++ a) ++ "\n" ++ pyJoin "\n" ((b :: u).map (fun x => "\n" ++ x)) =
        "\n" ++ (a ++ "\n\n" ++ pyJoin "\n\n" (b :: u))
      rw [ih (by simp)]
      simp only [← string_append_assoc]
      congr 1
      rw [string_append_assoc]
      congr 1

/-- C4 fails as stated: on a one-section outline whose generated text has
300 words, `write_content` succeeds but returns a leading newline before
the first heading, so its output is not the bare block concatenation the
claim describes. -/
theorem write_content_leading_newline_cex :
    write_content ⟨fun _ => Except.ok w300⟩ [("H", ["p"])] = .ok ("\nH\n" ++ w300) ∧
    specSectionBlocks ⟨fun _ => Except.ok w300⟩ [("H", ["p"])] = "H\n" ++ w300 ∧
    ("\nH\n" ++ w300 : String) ≠ "H\n" ++ w300 :=
  ⟨by decide, by decide, by decide⟩

/-- C4 (amended): for every non-empty outline, `write_content` produces a
leading newline followed by the blank-line-separated concatenation, in
outline key order, of blocks made of the section heading, a newline and
the model text; it fails with the insufficient-output `ValueError` exactly
when that text has fewer than 300 whitespace-delimited words. -/
theorem write_content_spec (bg : PromptChaining) (outline : Sections)
    (hne : outline ≠ []) :
    write_content bg outline =
      if (pyWords ("\n" ++ specSectionBlocks bg outline)).length < 300 then
        .error (.valueError "Content is too short. Please generate more detailed content.")
      else
        .ok ("\n" ++ specSectionBlocks bg outline) := by
  have hmap : outline.map
      (fun sp => "\n" ++ sp.1 ++ "\n" ++ generate_llm_response bg (content_prompt sp.2)) =
      (outline.map (fun sp => sp.1 ++ "\n" ++ generate_llm_response bg (content_prompt sp.2))).map
        (fun b => "\n" ++ b) := by
    rw [List.map_map]
    apply map_congr_mem
    intro sp _
    simp [Function.comp, string_append_assoc]
  have hfinal : pyJoin "\n" (outline.map
      (fun sp => "\n" ++ sp.1 ++ "\n" ++ generate_llm_response bg (content_prompt sp.2))) =
      "\n" ++ specSectionBlocks bg outline := by
    rw [hmap]
    exact pyJoin_newline_blocks _ (by simpa using hne)
  simp only [write_content, hfinal]

theorem write_content_spec_witness :
    write_content ⟨fun _ => Except.ok w300⟩ [("X", ["q"])] =
      if (pyWords ("\n" ++ specSectionBlocks ⟨fun _ => Except.ok w300⟩ [("X", ["q"])])).length < 300 then
        .error (.valueError "Content is too short. Please generate more detailed content.")
      else
        .ok ("\n" ++ specSectionBlocks ⟨fun _ => Except.ok w300⟩ [("X", ["q"])]) :=
  write_content_spec ⟨fun _ => Except.ok w300⟩ [("X", ["q"])] (by simp)

/-- C6: in every adapter run the `error` event can only occur as the last
event and occurs at most once; whenever any stage raises — topic
generation, the `topics[0]` selection, outline creation, content writing
or polishing — with the disconnect polls reaching that stage, the run is
exactly the earlier stages' success events followed by one terminal
`error` event carrying that exception's message, with no later stage
event; and when the first three stages succeed but the polish output
echoes its input, the run is exactly `topics`, `outline`,
`initial_content`, `error` with the no-edit message, and `final_content`
is never emitted. -/
theorem event_generator_error_spec (bg : PromptChaining) (domain target_audience : String)
    (disc : Nat → Bool) (ts : List String) (t : String) (o : Sections) (c : String) :
    errorsOnlyLast (event_generator bg domain target_audience disc) = true ∧
    errorCount (event_generator bg domain target_audience disc) ≤ 1 ∧
    (∀ e, generate_blog_topics bg domain target_audience = .error e →
      event_generator bg domain target_audience disc = [.error e.message]) ∧
    (∀ e, generate_blog_topics bg domain target_audience = .ok ts → disc 0 = false →
      pyIndex ts 0 = .error e →
      event_generator bg domain target_audience disc = [.topics ts, .error e.message]) ∧
    (∀ e, generate_blog_topics bg domain target_audience = .ok ts → disc 0 = false →
      pyIndex ts 0 = .ok t → create_outline bg t = .error e →
      event_generator bg domain target_audience disc = [.topics ts, .error e.message]) ∧
    (∀ e, generate_blog_topics bg domain target_audience = .ok ts → disc 0 = false →
      pyIndex ts 0 = .ok t → create_outline bg t = .ok o → disc 1 = false →
      write_content bg o = .error e →
      event_generator bg domain target_audience disc =
        [.topics ts, .outline o t, .error e.message]) ∧
    (∀ e, generate_blog_topics bg domain target_audience = .ok ts → disc 0 = false →
      pyIndex ts 0 = .ok t → create_outline bg t = .ok o → disc 1 = false →
      write_content bg o = .ok c → disc 2 = false → edit_and_polish bg c = .error e →
      event_generator bg domain target_audience disc =
        [.topics ts, .outline o t, .initial_content c, .error e.message]) ∧
    (generate_blog_topics bg domain target_audience = .ok ts →
      pyIndex ts 0 = .ok t →
      create_outline bg t = .ok o →
      write_content bg o = .ok c →
      pyStrip (generate_llm_response bg (polish_prompt c)) = pyStrip c →
      event_generator bg domain target_audience (fun _ => false) =
        [.topics ts, .outline o t, .initial_content c,
         .error "No meaningful edits were made. Please try editing again."]) := by
  refine ⟨?_, ?_, ?_, ?_, ?_, ?_, ?_, ?_⟩
  · unfold event_generator
    repeat' split
    all_goals simp [errorsOnlyLast, Event.isError]
  · unfold event_generator
    repeat' split
    all_goals simp [errorCount, Event.isError]
  · intro e he
    simp [event_generator, he]
  · intro e h1 hd0 h2
    simp [event_generator, h1, hd0, h2]
  · intro e h1 hd0 h2 h3
    simp [event_generator, h1, hd0, h2, h3]
  · intro e h1 hd0 h2 h3 hd1 h4
    simp [event_generator, h1, hd0, h2, h3, hd1, h4]
  · intro e h1 hd0 h2 h3 hd1 h4 hd2 h5
    simp [event_generator, h1, hd0, h2, h3, hd1, h4, hd2, h5]
  · intro h1 h2 h3 h4 h5
    simp [event_generator, h1, h2, h3, h4, edit_and_polish, h5, PyError.message]

/-- C7: with the first stage successful, a disconnect observed at the
poll after the `topics` event stops the run silently with exactly that one
event; likewise after the `outline` and `initial_content` events, with no
`error` event and no later stage event. -/
theorem event_generator_disconnect_spec (bg : PromptChaining)
    (domain target_audience : String) (disc : Nat → Bool)
    (ts : List String) (t : String) (o : Sections) (c : String)
    (h1 : generate_blog_topics bg domain target_audience = .ok ts) :
    (disc 0 = true → event_generator bg domain target_audience disc = [.topics ts]) ∧
    (disc 0 = false → disc 1 = true → pyIndex ts 0 = .ok t → create_outline bg t = .ok o →
      event_generator bg domain target_audience disc = [.topics ts, .outline o t]) ∧
    (disc 0 = false → disc 1 = false → disc 2 = true → pyIndex ts 0 = .ok t →
      create_outline bg t = .ok o → write_content bg o = .ok c →
      event_generator bg domain target_audience disc =
        [.topics ts, .outline o t, .initial_content c]) := by
  refine ⟨?_, ?_, ?_⟩
  · intro hd0
    simp [event_generator, h1, hd0]
  · intro hd0 hd1 h2 h3
    simp [event_generator, h1, hd0, hd1, h2, h3]
  · intro hd0 hd1 hd2 h2 h3 h4
    simp [event_generator, h1, hd0, hd1, hd2, h2, h3, h4]

theorem event_generator_disconnect_spec_witness :
    event_generator ⟨fun _ => Except.ok "A\nB\nC"⟩ "d" "a" (fun _ => true) =
      [.topics ["A", "B", "C"]] :=
  (event_generator_disconnect_spec ⟨fun _ => Except.ok "A\nB\nC"⟩ "d" "a" (fun _ => true)
    ["A", "B", "C"] "A" [("A", []), ("B", []), ("C", [])] "" (by decide)).1 rfl

theorem event_generator_error_spec_witness :
    event_generator scenarioD "d" "a" (fun _ => false) =
      [Event.topics ["A", "B", "C"],
       Event.outline [("A", []), ("B", []), ("C", [])] "A",
       Event.initial_content (pyJoin "\n" ["\nA\n" ++ w100, "\nB\n" ++ w100, "\nC\n" ++ w100]),
       Event.error "No meaningful edits were made. Please try editing again."] ∧
    event_generator outlineFailStub "d" "a" (fun _ => false) =
      [Event.topics ["A", "B", "C"],
       Event.error "Outline is too short. Please generate a more detailed outline."] :=
  ⟨(event_generator_error_spec scenarioD "d" "a" (fun _ => false) ["A", "B", "C"] "A"
      [("A", []), ("B", []), ("C", [])]
      (pyJoin "\n" ["\nA\n" ++ w100, "\nB\n" ++ w100, "\nC\n" ++ w100])).2.2.2.2.2.2.2
      (by decide) (by decide) (by decide) (by decide) (by decide),
   (event_generator_error_spec outlineFailStub "d" "a" (fun _ => false) ["A", "B", "C"] "A"
      [] "").2.2.2.2.1
      (.valueError "Outline is too short. Please generate a more detailed outline.")
      (by decide) rfl (by decide) (by decide)⟩

/-- C8: whenever the synchronous driver `main` finishes normally (all
caught errors included), the streaming adapter run on the same engine with
`main`'s hardcoded domain and audience and an always-connected consumer
emits exactly the sequence of intermediate and final results `main`
prints: the identical four-stage sequence, stage by stage. -/
theorem event_generator_refines_main (bg : PromptChaining) (es : List Event)
    (h : main_run bg = .ok es) :
    event_generator bg "artificial intelligence" "business professionals" (fun _ => false) = es := by
  rcases h1 : generate_blog_topics bg "artificial intelligence" "business professionals" with e | ts
  · simp only [main_run, h1] at h
    by_cases hv : e.isValueError
    · rw [if_pos hv] at h
      have hes := (Except.ok.inj h).symm
      subst hes
      simp [event_generator, h1]
    · rw [if_neg hv] at h
      exact absurd h (by simp)
  · rcases h2 : pyIndex ts 0 with e | t
    · simp only [main_run, h1, h2] at h
      by_cases hv : e.isValueError
      · rw [if_pos hv] at h
        have hes := (Except.ok.inj h).symm
        subst hes
        simp [event_generator, h1, h2]
      · rw [if_neg hv] at h
        exact absurd h (by simp)
    · rcases h3 : create_outline bg t with e | o
      · simp only [main_run, h1, h2, h3] at h
        by_cases hv : e.isValueError
        · rw [if_pos hv] at h
          have hes := (Except.ok.inj h).symm
          subst hes
          simp [event_generator, h1, h2, h3]
        · rw [if_neg hv] at h
          exact absurd h (by simp)
      · rcases h4 : write_content bg o with e | c
        · simp only [main_run, h1, h2, h3, h4] at h
          by_cases hv : e.isValueError
          · rw [if_pos hv] at h
            have hes := (Except.ok.inj h).symm
            subst hes
            simp [event_generator, h1, h2, h3, h4]
          · rw [if_neg hv] at h
            exact absurd h (by simp)
        · rcases h5 : edit_and_polish bg c with e | f
          · simp only [main_run, h1, h2, h3, h4, h5] at h
            by_cases hv : e.isValueError
            · rw [if_pos hv] at h
              have hes := (Except.ok.inj h).symm
              subst hes
              simp [event_generator, h1, h2, h3, h4, h5]
            · rw [if_neg hv] at h
              exact absurd h (by simp)
          · simp only [main_run, h1, h2, h3, h4, h5] at h
            have hes := (Except.ok.inj h).symm
            subst hes
            simp [event_generator, h1, h2, h3, h4, h5]

theorem event_generator_refines_main_witness :
    event_generator ⟨fun _ => Except.error "boom"⟩ "artificial intelligence"
      "business professionals" (fun _ => false) =
      [Event.error "Not enough topics generated. Please try again."] :=
  event_generator_refines_main ⟨fun _ => Except.error "boom"⟩
    [Event.error "Not enough topics generated. Please try again."] (by decide)
